import Mathlib

/-!
Shallow embedding of the failure-recovery core of the esp32_client firmware
(src/freeRtos.cpp, src/socketClient.cpp, src/main.cpp).

Strings of the C code are modelled as `List Char`.  The two external
collaborators that are opaque libraries (CRC32 checksum, AES decryption) are
passed as function parameters `crcCalc` and `decryptF`; every theorem below is
universally quantified over them.  Machine `unsigned long` / `uint32_t`
quantities use `Nat` with explicit reduction modulo `UINT32_MOD` where the C
code relies on 32-bit wrap-around.
-/

namespace Esp32Client

/-! ## Constants (src/freeRtos.cpp lines 68-78, src/main.cpp line 118) -/

def SOCKET_QUEUE_SIZE : Nat := 2

def HTTP_QUEUE_SIZE : Nat := 5

def MAX_RETRY : Nat := 5

def LWD_TIMEOUT : Nat := 15 * 1000

def UINT32_MOD : Nat := 4294967296

/-- FreeRTOS `pdTRUE` as returned by `xQueueSend` on success. -/
def pdTRUE : Nat := 1

/-- FreeRTOS `errQUEUE_FULL` (value 0) as returned by `xQueueSend` on a full queue. -/
def errQUEUE_FULL : Nat := 0

/-! ## Bounded queue: `xQueueSend(handle, item, 0)` — non-blocking send.
The zero tick argument means the call returns immediately; it appends the
record (copied by value) when fewer than `cap` records are waiting, and
returns `errQUEUE_FULL` leaving the queue untouched otherwise. -/

def trySend {α : Type} (cap : Nat) (q : List α) (x : α) : Nat × List α :=
  if q.length < cap then (pdTRUE, q ++ [x]) else (errQUEUE_FULL, q)

/-! ## Data model -/

/-- `socket_t` (src/freeRtos.cpp lines 101-106).  The `fun_ptr` field is always
`&socketClient` (line 206), so only the peer address and command vary. -/
structure SockRec where
  ipAddr : List Char
  cmd : List Char
deriving DecidableEq, Repr

/-- The state touched by `socketClient` / `socketRecovery`: the socket-recovery
queue `QueSocket_Handle`, the global `failSocket` counter, and the trace of
`deleteRow` (compensating-delete) calls issued, recorded by request URL. -/
structure SockState where
  socketQueue : List SockRec
  failSocket : Nat
  deletes : List (List Char)
deriving DecidableEq, Repr

/-- `message_t` (src/freeRtos.cpp lines 109-114): pre-formatted request line and
numeric correlation key (the `device` field is never written by the modelled
code paths and is omitted). -/
structure HttpMsg where
  line : List Char
  key : Int
deriving DecidableEq, Repr

/-- State touched by the HTTP path: the HTTP queue `QueHTTP_Handle`, the trace
of `deleteRow` calls (by URL), and the task counters of `taskSQL_HTTP`. -/
structure HttpState where
  httpQueue : List HttpMsg
  deletes : List (List Char)
  passPost : Nat
  failPost : Nat
  recovered : Nat
deriving DecidableEq, Repr

/-! ## socketRecovery (src/freeRtos.cpp lines 199-224)
Attempts `xQueueSend(QueSocket_Handle, &socketQue, 0)`.  On `errQUEUE_FULL` it
issues `deleteRow("http://192.168.1.252/deleteMAC.php?key=" + (String)IP)` and
then `xQueueReset(QueSocket_Handle)`.  (The queue handle is created in
`initRTOS`; the post-initialisation state is modelled, so the NULL-handle
branch returning 10 does not arise.) -/

def deleteMACurl (ip : List Char) : List Char :=
  ("http://192.168.1.252/deleteMAC.php?key=").data ++ ip

def socketRecovery (ip cmd : List Char) (st : SockState) : Nat × SockState :=
  let r := trySend SOCKET_QUEUE_SIZE st.socketQueue (SockRec.mk ip cmd)
  if r.1 = pdTRUE then (pdTRUE, { st with socketQueue := r.2 })
  else (errQUEUE_FULL,
    { st with deletes := st.deletes ++ [deleteMACurl ip], socketQueue := [] })

/-! ## Response parsing (src/socketClient.cpp lines 140-158)
`copyStr.indexOf(":")` / `substring` split the response at the first colon;
with no colon, `indexOf` returns -1, `substring(0, -1)` clamps to the whole
string and `substring(0)` is again the whole string. -/

def breakColon : List Char → Option (List Char × List Char)
  | [] => none
  | c :: cs =>
    if c = ':' then some ([], cs)
    else (breakColon cs).map (fun p => (c :: p.1, p.2))

def crcSplit (s : List Char) : List Char × List Char :=
  match breakColon s with
  | none => (s, s)
  | some p => p

/-- One hexadecimal digit as scanned by `sscanf("%x")`. -/
def hexDigit (c : Char) : Option Nat :=
  if ('0' ≤ c && c ≤ '9') then some (c.toNat - Char.toNat '0')
  else if ('a' ≤ c && c ≤ 'f') then some (c.toNat - Char.toNat 'a' + 10)
  else if ('A' ≤ c && c ≤ 'F') then some (c.toNat - Char.toNat 'A' + 10)
  else none

def hexParseAux : List Char → Nat → Nat
  | [], acc => acc
  | c :: cs, acc =>
    match hexDigit c with
    | some d => hexParseAux cs (acc * 16 + d)
    | none => acc

/-- `sscanf(crcString.c_str(), "%x", &calculatedCrc)`: value of the leading run
of hexadecimal digits.  (The responses exercised always start with a digit;
a digit-free prefix, which leaves the C variable unwritten, is not modelled.) -/
def hexParse (s : List Char) : Nat := hexParseAux s 0

/-! ## Tokenization (src/socketClient.cpp lines 169-183)
`strtok(str, ",")` yields the non-empty fields between commas.  Each token is
either the row sentinel `"|"` (advance `z`, reset `j`) or a value stored at
`tokens[z][j++]`.  The store positions `(z, j)` are recorded; there is no
bounds check in the source. -/

def splitComma : List Char → List (List Char)
  | [] => [[]]
  | c :: cs =>
    if c = ',' then [] :: splitComma cs
    else
      match splitComma cs with
      | [] => [[c]]
      | r :: rs => (c :: r) :: rs

def strtokTokens (s : List Char) : List (List Char) :=
  (splitComma s).filter (fun t => !t.isEmpty)

def rowSep : List Char := ['|']

def tokenStoresAux : List (List Char) → Nat → Nat → List (Nat × Nat)
  | [], _, _ => []
  | t :: ts, z, j =>
    if t = rowSep then tokenStoresAux ts (z + 1) 0
    else (z, j) :: tokenStoresAux ts z (j + 1)

def tokenStores (payload : List Char) : List (Nat × Nat) :=
  tokenStoresAux (strtokTokens payload) 0 0

/-- A store at `tokens[z][j]` lies inside the declared `float tokens[5][5]`. -/
def storeInBounds (p : Nat × Nat) : Bool := p.1 < 5 && p.2 < 5

/-! ## socketClient (src/socketClient.cpp lines 94-191) -/

/-- The network behaviour visible to one `socketClient` call: whether
`client.connect` succeeds, whether a response byte arrives within the 5 s
busy-wait window, and the raw response bytes read. -/
structure NetEnv where
  connectOk : Bool
  dataArrives : Bool
  response : List Char
deriving DecidableEq, Repr

structure SockResult where
  code : Nat
  st : SockState
  stores : List (Nat × Nat)
deriving DecidableEq, Repr

/-- `socketClient(espServer, command, updateErrorQueue)`.
`crcCalc` models the external CRC32 library (`crc.add` over the payload bytes
then `crc.calc()`, a `uint32_t`); `decryptF` models `decrypt_to_cleartext`
(AESLib), applied to the payload after the checksum passes (the
`NO_SOCKET_AES` macro is commented out in the source).  The comparison
`calculatedCrc != crc.calc()` converts the `int` to `unsigned`, i.e. compares
modulo 2^32.  On the success path the parsed rows are handed to
`processSensorData`, which only touches the HTTP-side state (`passSocket`,
`setupHTTP_request`) and is modelled separately; the store positions of the
tokenization loop are returned in `stores` (empty on the failure paths, which
return before tokenizing). -/
def socketClient (crcCalc : List Char → Nat) (decryptF : List Char → List Char)
    (env : NetEnv) (espServer command : List Char) (updateErrorQueue : Bool)
    (st : SockState) : SockResult :=
  if !env.connectOk then
    if updateErrorQueue then
      let st1 := (socketRecovery espServer command st).2
      SockResult.mk 1 { st1 with failSocket := st1.failSocket + 1 } []
    else SockResult.mk 1 st []
  else if !env.dataArrives then
    if updateErrorQueue then
      let st1 := (socketRecovery espServer command st).2
      SockResult.mk 2 { st1 with failSocket := st1.failSocket + 1 } []
    else SockResult.mk 2 st []
  else
    let sp := crcSplit env.response
    let calculatedCrc := hexParse sp.1
    let parsed := sp.2
    if calculatedCrc % UINT32_MOD ≠ crcCalc parsed % UINT32_MOD then
      if updateErrorQueue then
        let st1 := (socketRecovery espServer command st).2
        SockResult.mk 3 { st1 with failSocket := st1.failSocket + 1 } []
      else SockResult.mk 3 st []
    else
      SockResult.mk 0 st (tokenStores (decryptF parsed))

/-! ## taskSQL_HTTP failure handling (src/freeRtos.cpp lines 258-316) -/

/-- The string literal of `"http://192.168.1.252/delete.php?key=" + message.key`
(36 characters). -/
def deletePhpLiteral : List Char := ("http://192.168.1.252/delete.php?key=").data

/-- The `String phpScript` actually built at src/freeRtos.cpp line 289.  The
left operand is a `const char*` and `message.key` is an `int`, so the `+` is
C pointer arithmetic, not Arduino `String` concatenation: the result is the
literal advanced by `key` characters (for `0 ≤ key ≤ 36`; outside that range
the C program reads past the literal, which is undefined behaviour and is
modelled here by clamping). -/
def taskDeleteURL (key : Int) : List Char := List.drop key.toNat deletePhpLiteral

/-- The retry loop at src/freeRtos.cpp lines 292-299:
`int j = 0, rc = 0; while (1) { vTaskDelay(xDelay); rc = deleteRow(phpScript);
if (rc || j++ == MAX_RETRY) break; }`.
`deleteOk k` is the outcome of the (k+1)-th `deleteRow` call (one task-period
delay precedes every call).  Returns (number of calls made, final `rc`).  The
loop body runs at most `MAX_RETRY + 1` times, so fuel 7 is never exhausted. -/
def deleteLoop (deleteOk : Nat → Bool) : Nat → Nat → Nat × Bool
  | _, 0 => (0, false)
  | j, fuel + 1 =>
    let rc := deleteOk j
    if rc || j == MAX_RETRY then (1, rc)
    else
      let r := deleteLoop deleteOk (j + 1) fuel
      (r.1 + 1, r.2)

def deleteRetry (deleteOk : Nat → Bool) : Nat × Bool := deleteLoop deleteOk 0 7

/-- Handling of one dequeued message inside `taskSQL_HTTP` (the body between
`xSemaphoreTake(xMutex_http, ...)` and `xSemaphoreGive`, src/freeRtos.cpp
lines 278-310).  `postCode` is the value of `http.POST(message.line)`.
On `postCode > 0` the task counts a pass.  Otherwise it builds `phpScript`,
counts a fail, runs the bounded `deleteRow` retry loop (each attempt's URL is
recorded in `deletes`), then re-submits the message with
`xQueueSend(QueHTTP_Handle, &message, 0)` and increments `recovered` exactly
when that send returns `pdTRUE`. -/
def taskHttpHandleMessage (postCode : Int) (deleteOk : Nat → Bool)
    (msg : HttpMsg) (st : HttpState) : HttpState :=
  if postCode > 0 then { st with passPost := st.passPost + 1 }
  else
    let phpScript := taskDeleteURL msg.key
    let r := deleteRetry deleteOk
    let st1 := { st with
      failPost := st.failPost + 1
      deletes := st.deletes ++ List.replicate r.1 phpScript }
    let s := trySend HTTP_QUEUE_SIZE st1.httpQueue msg
    if s.1 = pdTRUE then
      { st1 with httpQueue := s.2, recovered := st1.recovered + 1 }
    else st1

/-! ## setupHTTP_request (src/freeRtos.cpp lines 403-433)
Guarded by `QueHTTP_Handle != NULL && uxQueueSpacesAvailable(QueHTTP_Handle) > 0`
(i.e. the handle was created and fewer than `HTTP_QUEUE_SIZE` messages wait);
only then is the message built and sent with `xQueueSend(..., 0)`.
`v1`/`v2`/`passStr` are the externally formatted decimal renderings of
`String(tokens[1])`, `String(tokens[2])` and `String(passSocket)` (Arduino
float formatting, out of scope); `key` is `(int)tokens[3]`. -/

def setupHTTP_request (handleInit : Bool) (sensorName v1 v2 passStr : List Char)
    (key : Int) (st : HttpState) : HttpState :=
  if handleInit ∧ st.httpQueue.length < HTTP_QUEUE_SIZE then
    let line := ("api_key=tPmAT5Ab3j7F9&sensor=").data ++ sensorName
      ++ ("&location=HOME&value1=").data ++ v1
      ++ ("&value2=").data ++ v2
      ++ ("&value3=").data ++ passStr
    { st with httpQueue := (trySend HTTP_QUEUE_SIZE st.httpQueue (HttpMsg.mk line key)).2 }
  else st

/-! ## queStat (src/freeRtos.cpp lines 477-498) and the liveness monitor
(src/main.cpp lines 337-362)

`queStat` polls `uxQueueMessagesWaiting` on both queues once per second
(`vTaskDelay(1000)`), giving up with `false` once `millis() - timeout > 5000`;
only after both queues are observed empty does it block on
`xSemaphoreTake(xMutex_sock/http, portMAX_DELAY)` (which waits for the task
currently holding the lock to finish its record) and return `true`.
`waiting k` is the total number of queued records at the k-th poll; elapsed
time at that poll is k * 1000 ms, so the poll at k = 6 is the first that can
time out.  Fuel 7 is therefore never exhausted. -/

def queStatPoll (waiting : Nat → Nat) : Nat → Nat → Bool
  | _, 0 => false
  | k, fuel + 1 =>
    if waiting k = 0 then true
    else if k * 1000 > 5000 then false
    else queStatPoll waiting (k + 1) fuel

def queStat (waiting : Nat → Nat) : Bool := queStatPoll waiting 0 7

/-- Outcome of the watchdog expiry path `{ report; queStat(); ESP.restart(); }`:
`drained` is `queStat`'s return value (`true` means the queues emptied within
the window and both locks were then acquired); `restarted` records that
`ESP.restart()` runs. -/
structure MonitorOutcome where
  drained : Bool
  restarted : Bool
deriving DecidableEq, Repr

def lwdtcbExpiry (waiting : Nat → Nat) : MonitorOutcome :=
  MonitorOutcome.mk (queStat waiting) true

/-- The watchdog bookkeeping: `unsigned long lwdTime, lwdTimeout` of
src/main.cpp lines 119-120, values modulo 2^32. -/
structure LwdState where
  lwdTime : Nat
  lwdTimeout : Nat
deriving DecidableEq, Repr

/-- 32-bit unsigned subtraction `a - b`. -/
def sub32 (a b : Nat) : Nat :=
  (a % UINT32_MOD + (UINT32_MOD - b % UINT32_MOD)) % UINT32_MOD

/-- `lwdtFeed` (src/main.cpp lines 358-362): `lwdTime = millis();
lwdTimeout = lwdTime + LWD_TIMEOUT;`. -/
def lwdtFeed (now : Nat) : LwdState :=
  LwdState.mk (now % UINT32_MOD) ((now + LWD_TIMEOUT) % UINT32_MOD)

/-- The guard of `lwdtcb` (src/main.cpp line 341):
`(millis() - lwdTime > LWD_TIMEOUT) || (lwdTimeout - lwdTime != LWD_TIMEOUT)`. -/
def lwdtcbTrigger (now : Nat) (st : LwdState) : Bool :=
  decide (sub32 now st.lwdTime > LWD_TIMEOUT)
    || decide (sub32 st.lwdTimeout st.lwdTime ≠ LWD_TIMEOUT)

/-- `lwdtcb` (src/main.cpp lines 337-349): when the guard fires it reports to
the dashboard, runs `queStat()` and unconditionally calls `ESP.restart()`;
otherwise it does nothing (`none`). -/
def lwdtcb (now : Nat) (st : LwdState) (waiting : Nat → Nat) :
    Option MonitorOutcome :=
  if lwdtcbTrigger now st then some (lwdtcbExpiry waiting) else none

/-! ## Hypothesis shapes for the tokenization bound -/

/-- Every row of the token stream holds at most 5 value fields: `j` stays
below 5 between two sentinel tokens (`j` is the current field index). -/
def rowsOk : Nat → List (List Char) → Bool
  | _, [] => true
  | j, t :: ts => if t = rowSep then rowsOk 0 ts else decide (j < 5) && rowsOk (j + 1) ts

/-- Number of row-sentinel tokens in the stream. -/
def sepCount (ts : List (List Char)) : Nat := ts.countP (fun t => t == rowSep)

/-! ## Theorems -/

/-- C2: the non-blocking send (`xQueueSend` with zero ticks) never makes either
queue exceed its fixed capacity (2 records for the socket queue, 5 for the
HTTP queue), and a send issued while the queue is full returns
`errQUEUE_FULL` and leaves the queue contents unchanged. -/
theorem C2_trySend_bounded (q : List SockRec) (x : SockRec)
    (qh : List HttpMsg) (y : HttpMsg)
    (h1 : q.length ≤ SOCKET_QUEUE_SIZE) (h2 : qh.length ≤ HTTP_QUEUE_SIZE) :
    ((trySend SOCKET_QUEUE_SIZE q x).2.length ≤ SOCKET_QUEUE_SIZE
      ∧ (q.length = SOCKET_QUEUE_SIZE →
          trySend SOCKET_QUEUE_SIZE q x = (errQUEUE_FULL, q)))
    ∧ ((trySend HTTP_QUEUE_SIZE qh y).2.length ≤ HTTP_QUEUE_SIZE
      ∧ (qh.length = HTTP_QUEUE_SIZE →
          trySend HTTP_QUEUE_SIZE qh y = (errQUEUE_FULL, qh))) := by
  refine ⟨⟨?_, ?_⟩, ⟨?_, ?_⟩⟩
  · unfold trySend
    split_ifs with h <;> (simp_all [SOCKET_QUEUE_SIZE]; try omega)
  · intro hfull
    unfold trySend
    split_ifs with h
    all_goals simp_all [SOCKET_QUEUE_SIZE]
  · unfold trySend
    split_ifs with h <;> (simp_all [HTTP_QUEUE_SIZE]; try omega)
  · intro hfull
    unfold trySend
    split_ifs with h
    all_goals simp_all [HTTP_QUEUE_SIZE]

/-- C2 witness: concrete full queues of both kinds. -/
theorem C2_trySend_bounded_witness :
    ([SockRec.mk [] [], SockRec.mk [] []] : List SockRec).length ≤ SOCKET_QUEUE_SIZE
    ∧ (trySend SOCKET_QUEUE_SIZE [SockRec.mk [] [], SockRec.mk [] []]
          (SockRec.mk [] [])).2.length ≤ SOCKET_QUEUE_SIZE :=
  ⟨by decide,
   ((C2_trySend_bounded [SockRec.mk [] [], SockRec.mk [] []] (SockRec.mk [] [])
      [] (HttpMsg.mk [] 0) (by decide) (by decide)).1).1⟩

/-- C5: evaluation of the compensating-delete URL actually built by
`taskSQL_HTTP` (src/freeRtos.cpp line 289).  Because
`"http://192.168.1.252/delete.php?key=" + message.key` adds an `int` to a
`const char*`, the URL is the endpoint literal advanced by `key` characters:
for key = 5 it is a truncated endpoint that does not carry the key at all,
and for the spec scenario key = 42 the offset points past the 36-character
literal (undefined behaviour, clamped to the empty string in this model).
The claimed form `<endpoint>?key=<correlationKey>` is never produced. -/
theorem C5_deleteURL_bug :
    taskDeleteURL 5 = ("//192.168.1.252/delete.php?key=").data
    ∧ taskDeleteURL 5 ≠ deletePhpLiteral ++ ("5").data
    ∧ taskDeleteURL 42 = [] := by decide

/-- C6: when the enqueue attempt on the socket-recovery queue reports full,
`socketRecovery` issues exactly one compensating `deleteRow` call keyed on the
failing peer's address and resets the queue, dropping all pending records. -/
theorem C6_socketRecovery_full (ip cmd : List Char) (st : SockState)
    (h : ¬ st.socketQueue.length < SOCKET_QUEUE_SIZE) :
    socketRecovery ip cmd st =
      (errQUEUE_FULL,
        { st with
          socketQueue := []
          deletes := st.deletes ++ [deleteMACurl ip] }) := by
  unfold socketRecovery trySend
  simp [h, pdTRUE, errQUEUE_FULL]

/-- C6 witness: queue already holding records for peers A and B; the attempt
for peer C reports full, resets the queue and issues the delete keyed on C. -/
theorem C6_socketRecovery_full_witness :
    ¬ ([SockRec.mk (("A").data) (("ALL").data),
        SockRec.mk (("B").data) (("ALL").data)] : List SockRec).length
          < SOCKET_QUEUE_SIZE
    ∧ socketRecovery (("C").data) (("ALL").data)
        (SockState.mk [SockRec.mk (("A").data) (("ALL").data),
                       SockRec.mk (("B").data) (("ALL").data)] 0 []) =
      (errQUEUE_FULL,
        SockState.mk [] 0 [deleteMACurl (("C").data)]) :=
  ⟨by decide,
   by
    have h := C6_socketRecovery_full (("C").data) (("ALL").data)
      (SockState.mk [SockRec.mk (("A").data) (("ALL").data),
                     SockRec.mk (("B").data) (("ALL").data)] 0 []) (by decide)
    simpa using h⟩

/-- C7: with `updateErrorQueue = false`, every failure path of `socketClient`
(connect failure, timeout, checksum mismatch) leaves the socket-recovery
queue, the fail counter and the delete trace unchanged: no recovery record is
enqueued. -/
theorem C7_noRecursiveEnqueue (crcCalc : List Char → Nat)
    (decryptF : List Char → List Char) (env : NetEnv) (ip cmd : List Char)
    (st : SockState)
    (_h : (socketClient crcCalc decryptF env ip cmd false st).code ≠ 0) :
    (socketClient crcCalc decryptF env ip cmd false st).st = st := by
  rcases env with ⟨co, da, resp⟩
  cases co <;> cases da <;> simp [socketClient]
  all_goals split_ifs <;> rfl

/-- C7 witness: an unreachable peer with the queue untouched. -/
theorem C7_noRecursiveEnqueue_witness :
    (socketClient (fun _ => 0) (fun s => s) (NetEnv.mk false false [])
        (("A").data) (("ALL").data) false (SockState.mk [] 0 [])).code ≠ 0
    ∧ (socketClient (fun _ => 0) (fun s => s) (NetEnv.mk false false [])
        (("A").data) (("ALL").data) false (SockState.mk [] 0 [])).st =
      SockState.mk [] 0 [] :=
  ⟨by decide,
   C7_noRecursiveEnqueue (fun _ => 0) (fun s => s) (NetEnv.mk false false [])
     (("A").data) (("ALL").data) (SockState.mk [] 0 []) (by decide)⟩

/-- C10: when the HTTP queue handle is uninitialized or the queue has no free
slot, `setupHTTP_request` returns without enqueuing: the HTTP queue, the
delete trace and every counter are unchanged, and no remote side effect
occurs (no compensating delete, no queue reset). -/
theorem C10_setupHTTP_full_noop (handleInit : Bool)
    (sensorName v1 v2 passStr : List Char) (key : Int) (st : HttpState)
    (h : handleInit = false ∨ HTTP_QUEUE_SIZE ≤ st.httpQueue.length) :
    setupHTTP_request handleInit sensorName v1 v2 passStr key st = st := by
  unfold setupHTTP_request
  split_ifs with hc
  · exfalso
    rcases hc with ⟨hb, hlen⟩
    rcases h with h | h
    · rw [h] at hb; exact Bool.false_ne_true hb
    · omega
  · rfl

/-- C10 witness: a full HTTP queue silently discards the new message. -/
theorem C10_setupHTTP_full_noop_witness :
    (true = false ∨ HTTP_QUEUE_SIZE ≤
      ([HttpMsg.mk [] 0, HttpMsg.mk [] 1, HttpMsg.mk [] 2, HttpMsg.mk [] 3,
        HttpMsg.mk [] 4] : List HttpMsg).length)
    ∧ setupHTTP_request true (("SHT35").data) [] [] []
        7 (HttpState.mk [HttpMsg.mk [] 0, HttpMsg.mk [] 1, HttpMsg.mk [] 2,
            HttpMsg.mk [] 3, HttpMsg.mk [] 4] [] 0 0 0) =
      HttpState.mk [HttpMsg.mk [] 0, HttpMsg.mk [] 1, HttpMsg.mk [] 2,
        HttpMsg.mk [] 3, HttpMsg.mk [] 4] [] 0 0 0 :=
  ⟨Or.inr (by decide),
   C10_setupHTTP_full_noop true (("SHT35").data) [] [] [] 7
     (HttpState.mk [HttpMsg.mk [] 0, HttpMsg.mk [] 1, HttpMsg.mk [] 2,
        HttpMsg.mk [] 3, HttpMsg.mk [] 4] [] 0 0 0) (Or.inr (by decide))⟩

/-- After a feed at time `f`, the elapsed-time computation
`millis() - lwdTime` recovers the true elapsed time whenever it is below one
32-bit wrap period. -/
lemma sub32_elapsed (f d : Nat) (hd : d < UINT32_MOD) :
    sub32 (f + d) (f % UINT32_MOD) = d := by
  unfold sub32 UINT32_MOD at *
  omega

/-- After a feed, the tracked deadline is always internally consistent:
`lwdTimeout - lwdTime == LWD_TIMEOUT` in 32-bit arithmetic. -/
lemma sub32_feed_consistent (f : Nat) :
    sub32 ((f + LWD_TIMEOUT) % UINT32_MOD) (f % UINT32_MOD) = LWD_TIMEOUT := by
  unfold sub32 LWD_TIMEOUT UINT32_MOD
  omega

/-- C8: the Liveness Monitor callback triggers the report/drain/restart
sequence if and only if the elapsed time since the last feed exceeds
`LWD_TIMEOUT` or the tracked deadline is inconsistent
(`lwdTimeout - lwdTime != LWD_TIMEOUT`); consequently after a feed at time
`f`, a callback at any `now` with `now - f ≤ LWD_TIMEOUT` does nothing, and a
callback with `LWD_TIMEOUT < now - f` (feed omitted beyond one window, elapsed
below a 32-bit wrap) reports, drains and restarts. -/
theorem C8_watchdog_fires_iff_expired :
    (∀ (now : Nat) (st : LwdState),
        lwdtcbTrigger now st = true ↔
          (LWD_TIMEOUT < sub32 now st.lwdTime
            ∨ sub32 st.lwdTimeout st.lwdTime ≠ LWD_TIMEOUT))
    ∧ (∀ (f now : Nat) (waiting : Nat → Nat), f ≤ now → now - f ≤ LWD_TIMEOUT →
        lwdtcb now (lwdtFeed f) waiting = none)
    ∧ (∀ (f now : Nat) (waiting : Nat → Nat), f ≤ now → LWD_TIMEOUT < now - f →
        now - f < UINT32_MOD →
        lwdtcb now (lwdtFeed f) waiting = some (lwdtcbExpiry waiting)) := by
  refine ⟨?_, ?_, ?_⟩
  · intro now st
    unfold lwdtcbTrigger
    simp
  · intro f now waiting hle hwin
    have hnow : f + (now - f) = now := by omega
    have htrig : lwdtcbTrigger now (lwdtFeed f) = false := by
      unfold lwdtcbTrigger lwdtFeed
      rw [← hnow]
      rw [sub32_elapsed f (now - f) (by unfold UINT32_MOD LWD_TIMEOUT at *; omega)]
      rw [sub32_feed_consistent f]
      simp
      omega
    unfold lwdtcb
    rw [htrig]
    rfl
  · intro f now waiting hle hwin hwrap
    have hnow : f + (now - f) = now := by omega
    have htrig : lwdtcbTrigger now (lwdtFeed f) = true := by
      unfold lwdtcbTrigger lwdtFeed
      rw [← hnow]
      rw [sub32_elapsed f (now - f) hwrap]
      simp
      omega
    unfold lwdtcb
    rw [htrig]
    rfl

/-- C8 witness: feed at 0; callback at 10 s stays quiet, callback at 20 s
(feed omitted past the 15 s window) restarts. -/
theorem C8_watchdog_fires_iff_expired_witness :
    lwdtcb 10000 (lwdtFeed 0) (fun _ => 0) = none
    ∧ lwdtcb 20000 (lwdtFeed 0) (fun _ => 0) =
        some (lwdtcbExpiry (fun _ => 0)) :=
  ⟨C8_watchdog_fires_iff_expired.2.1 0 10000 (fun _ => 0) (by decide) (by decide),
   C8_watchdog_fires_iff_expired.2.2 0 20000 (fun _ => 0) (by decide) (by decide)
     (by decide)⟩

/-- `queStat` written out as its (at most seven) polls: closed form of the
poll loop. -/
lemma queStat_eq_closed (w : Nat → Nat) :
    queStat w =
      (if w 0 = 0 then true else if w 1 = 0 then true else
       if w 2 = 0 then true else if w 3 = 0 then true else
       if w 4 = 0 then true else if w 5 = 0 then true else
       if w 6 = 0 then true else false) := rfl

/-- `queStat` succeeds exactly when the queues are observed empty at one of
the seven polls inside the 5-second window. -/
lemma queStat_true_iff (w : Nat → Nat) :
    queStat w = true ↔ ∃ k < 7, w k = 0 := by
  rw [queStat_eq_closed]
  split_ifs with h0 h1 h2 h3 h4 h5 h6
  · exact iff_of_true rfl ⟨0, by norm_num, h0⟩
  · exact iff_of_true rfl ⟨1, by norm_num, h1⟩
  · exact iff_of_true rfl ⟨2, by norm_num, h2⟩
  · exact iff_of_true rfl ⟨3, by norm_num, h3⟩
  · exact iff_of_true rfl ⟨4, by norm_num, h4⟩
  · exact iff_of_true rfl ⟨5, by norm_num, h5⟩
  · exact iff_of_true rfl ⟨6, by norm_num, h6⟩
  · refine iff_of_false (by simp) ?_
    rintro ⟨k, hk7, hk0⟩
    interval_cases k <;> simp_all

/-- C3 (amended): whenever the expiry path runs, the hard restart is issued
unconditionally after `queStat`; `queStat` reports a successful drain (and
only then acquires both locks, waiting out any in-flight record) exactly when
the queues are observed empty at one of its polls inside the 5-second window —
if the queues stay non-empty for the whole window it gives up, and the restart
proceeds anyway with records still pending. -/
theorem C3_drain_then_restart (now : Nat) (st : LwdState) (waiting : Nat → Nat)
    (h : lwdtcbTrigger now st = true) :
    lwdtcb now st waiting = some (MonitorOutcome.mk (queStat waiting) true)
    ∧ (queStat waiting = true ↔ ∃ k < 7, waiting k = 0) := by
  constructor
  · unfold lwdtcb lwdtcbExpiry
    rw [h]
    rfl
  · exact queStat_true_iff waiting

/-- C3 counterexample: with one record pending at every poll, the expiry path
still restarts (`restarted = true`) even though the drain failed
(`drained = false`) — the restart is not gated on the tasks being idle with
no pending records, refuting the claim as stated. -/
theorem C3_restart_with_pending_counterexample :
    lwdtcb 20000 (lwdtFeed 0) (fun _ => 1) =
      some (MonitorOutcome.mk false true) := by decide

/-- C3 witness for the amended theorem: an expired watchdog with empty
queues. -/
theorem C3_drain_then_restart_witness :
    lwdtcb 20000 (lwdtFeed 0) (fun _ => 0) =
      some (MonitorOutcome.mk (queStat (fun _ => 0)) true) :=
  (C3_drain_then_restart 20000 (lwdtFeed 0) (fun _ => 0) (by decide)).1

/-- Behaviour of the `deleteRow` retry loop: it always makes between 1 and
`MAX_RETRY + 1 - j` calls when started at counter `j`, its final `rc` is the
outcome of the last call, and every call before the last returned failure
(the loop stops at the first success). -/
lemma deleteLoop_spec (deleteOk : Nat → Bool) :
    ∀ fuel j, j ≤ MAX_RETRY → MAX_RETRY + 2 - j ≤ fuel →
      1 ≤ (deleteLoop deleteOk j fuel).1
      ∧ (deleteLoop deleteOk j fuel).1 ≤ MAX_RETRY + 1 - j
      ∧ (deleteLoop deleteOk j fuel).2 =
          deleteOk (j + (deleteLoop deleteOk j fuel).1 - 1)
      ∧ ∀ i, i + 1 < (deleteLoop deleteOk j fuel).1 → deleteOk (j + i) = false := by
  intro fuel
  induction fuel with
  | zero =>
    intro j hj hf
    exfalso
    unfold MAX_RETRY at *
    omega
  | succ fuel ih =>
    intro j hj hf
    by_cases hb : (deleteOk j || (j == MAX_RETRY)) = true
    · have he : deleteLoop deleteOk j (fuel + 1) = (1, deleteOk j) := by
        unfold deleteLoop
        rw [if_pos hb]
      rw [he]
      refine ⟨le_refl 1, by unfold MAX_RETRY at *; omega, ?_, ?_⟩
      · have : j + 1 - 1 = j := by omega
        rw [this]
      · intro i hi
        omega
    · have he : deleteLoop deleteOk j (fuel + 1) =
          ((deleteLoop deleteOk (j + 1) fuel).1 + 1,
            (deleteLoop deleteOk (j + 1) fuel).2) := by
        simp only [deleteLoop]
        rw [if_neg hb]
      simp only [Bool.or_eq_true, not_or, Bool.not_eq_true,
        beq_eq_false_iff_ne] at hb
      obtain ⟨hb1, hb2⟩ := hb
      obtain ⟨ih1, ih2, ih3, ih4⟩ :=
        ih (j + 1) (by unfold MAX_RETRY at *; omega) (by unfold MAX_RETRY at *; omega)
      rw [he]
      refine ⟨by omega, by unfold MAX_RETRY at *; omega, ?_, ?_⟩
      · have : j + ((deleteLoop deleteOk (j + 1) fuel).1 + 1) - 1 =
            j + 1 + (deleteLoop deleteOk (j + 1) fuel).1 - 1 := by omega
        rw [this]
        exact ih3
      · intro i hi
        cases i with
        | zero => simpa using hb1
        | succ i0 =>
          have : j + (i0 + 1) = j + 1 + i0 := by omega
          rw [this]
          exact ih4 i0 (by omega)

/-- Closed form of one failing-POST handling step of `taskSQL_HTTP`. -/
lemma taskHttp_fail_state (postCode : Int) (deleteOk : Nat → Bool)
    (msg : HttpMsg) (st : HttpState) (hnp : ¬ postCode > 0) :
    taskHttpHandleMessage postCode deleteOk msg st =
      if st.httpQueue.length < HTTP_QUEUE_SIZE then
        { httpQueue := st.httpQueue ++ [msg]
          deletes := st.deletes ++
            List.replicate (deleteRetry deleteOk).1 (taskDeleteURL msg.key)
          passPost := st.passPost
          failPost := st.failPost + 1
          recovered := st.recovered + 1 }
      else
        { httpQueue := st.httpQueue
          deletes := st.deletes ++
            List.replicate (deleteRetry deleteOk).1 (taskDeleteURL msg.key)
          passPost := st.passPost
          failPost := st.failPost + 1
          recovered := st.recovered } := by
  unfold taskHttpHandleMessage trySend
  rw [if_neg hnp]
  by_cases hq : st.httpQueue.length < HTTP_QUEUE_SIZE
  · simp [pdTRUE, errQUEUE_FULL, hq]
  · simp [pdTRUE, errQUEUE_FULL, hq]

/-- C4 (amended): on a transport-level POST failure (`status ≤ 0`) the HTTP
Post Task issues the compensating delete at most `MAX_RETRY + 1 = 6` times
(the `rc || j++ == MAX_RETRY` break permits one initial attempt plus
`MAX_RETRY` retries), with one task-period delay before each attempt; it
stops issuing further attempts as soon as one succeeds; then regardless of
the delete outcome it makes exactly one non-blocking re-submission of the
original message, and increments the `recovered` counter if and only if that
re-submission is accepted. -/
theorem C4_httpRecovery_bounded (postCode : Int) (deleteOk : Nat → Bool)
    (msg : HttpMsg) (st : HttpState) (hpost : postCode ≤ 0) :
    1 ≤ (deleteRetry deleteOk).1
    ∧ (deleteRetry deleteOk).1 ≤ MAX_RETRY + 1
    ∧ (deleteRetry deleteOk).2 = deleteOk ((deleteRetry deleteOk).1 - 1)
    ∧ (∀ i, i + 1 < (deleteRetry deleteOk).1 → deleteOk i = false)
    ∧ (taskHttpHandleMessage postCode deleteOk msg st).deletes =
        st.deletes ++ List.replicate (deleteRetry deleteOk).1 (taskDeleteURL msg.key)
    ∧ (taskHttpHandleMessage postCode deleteOk msg st).failPost = st.failPost + 1
    ∧ (taskHttpHandleMessage postCode deleteOk msg st).passPost = st.passPost
    ∧ (taskHttpHandleMessage postCode deleteOk msg st).httpQueue =
        (trySend HTTP_QUEUE_SIZE st.httpQueue msg).2
    ∧ (taskHttpHandleMessage postCode deleteOk msg st).recovered =
        (if st.httpQueue.length < HTTP_QUEUE_SIZE then st.recovered + 1
         else st.recovered) := by
  obtain ⟨h1, h2, h3, h4⟩ :=
    deleteLoop_spec deleteOk 7 0 (by unfold MAX_RETRY; omega)
      (by unfold MAX_RETRY; omega)
  have hnp : ¬ postCode > 0 := by omega
  refine ⟨h1, by unfold deleteRetry MAX_RETRY at *; omega, ?_, ?_, ?_, ?_, ?_, ?_, ?_⟩
  · simpa [deleteRetry] using h3
  · intro i hi
    simpa using h4 i (by simpa [deleteRetry] using hi)
  · rw [taskHttp_fail_state postCode deleteOk msg st hnp]
    split_ifs with hq <;> rfl
  · rw [taskHttp_fail_state postCode deleteOk msg st hnp]
    split_ifs with hq <;> rfl
  · rw [taskHttp_fail_state postCode deleteOk msg st hnp]
    split_ifs with hq <;> rfl
  · rw [taskHttp_fail_state postCode deleteOk msg st hnp]
    unfold trySend
    split_ifs with hq <;> rfl
  · rw [taskHttp_fail_state postCode deleteOk msg st hnp]
    split_ifs with hq <;> rfl

/-- C4 counterexample: POST fails with code -1 and every delete attempt
fails; six compensating-delete requests are issued, refuting the claimed
bound of five. -/
theorem C4_sixAttempts_counterexample :
    (taskHttpHandleMessage (-1) (fun _ => false) (HttpMsg.mk [] 0)
        (HttpState.mk [] [] 0 0 0)).deletes.length = 6
    ∧ ¬ ((taskHttpHandleMessage (-1) (fun _ => false) (HttpMsg.mk [] 0)
        (HttpState.mk [] [] 0 0 0)).deletes.length ≤ 5) := by decide

/-- C4 witness: the spec scenario — POST returns -1 for the message with
key 0, the third delete attempt succeeds, the message is re-submitted and the
recovered counter goes up by one. -/
theorem C4_httpRecovery_bounded_witness :
    ((-1 : Int) ≤ 0)
    ∧ (taskHttpHandleMessage (-1) (fun k => k == 2) (HttpMsg.mk [] 0)
        (HttpState.mk [] [] 0 0 0)).deletes =
      [] ++ List.replicate (deleteRetry (fun k => k == 2)).1 (taskDeleteURL 0)
    ∧ (taskHttpHandleMessage (-1) (fun k => k == 2) (HttpMsg.mk [] 0)
        (HttpState.mk [] [] 0 0 0)).recovered =
      (if ([] : List HttpMsg).length < HTTP_QUEUE_SIZE then 0 + 1 else 0) :=
  ⟨by decide,
   (C4_httpRecovery_bounded (-1) (fun k => k == 2) (HttpMsg.mk [] 0)
      (HttpState.mk [] [] 0 0 0) (by decide)).2.2.2.2.1,
   (C4_httpRecovery_bounded (-1) (fun k => k == 2) (HttpMsg.mk [] 0)
      (HttpState.mk [] [] 0 0 0) (by decide)).2.2.2.2.2.2.2.2⟩

/-- The tokenization loop stays inside the 5×5 array provided the remaining
token stream carries at most `4 - z` further row sentinels and every row run
keeps the field index below 5. -/
lemma tokenStoresAux_bounds :
    ∀ (ts : List (List Char)) (z j : Nat),
      z + sepCount ts ≤ 4 → rowsOk j ts = true →
      ((tokenStoresAux ts z j).all storeInBounds) = true := by
  intro ts
  induction ts with
  | nil => intro z j _ _; rfl
  | cons t ts ih =>
    intro z j h1 h2
    by_cases hsep : t = rowSep
    · have hc : sepCount (t :: ts) = 1 + sepCount ts := by
        simp [sepCount, List.countP_cons, hsep]
        omega
      rw [hc] at h1
      rw [tokenStoresAux, if_pos hsep]
      rw [rowsOk, if_pos hsep] at h2
      exact ih (z + 1) 0 (by omega) h2
    · have hc : sepCount (t :: ts) = sepCount ts := by
        simp [sepCount, List.countP_cons, hsep]
      rw [hc] at h1
      rw [tokenStoresAux, if_neg hsep]
      rw [rowsOk, if_neg hsep, Bool.and_eq_true, decide_eq_true_eq] at h2
      rw [List.all_cons, Bool.and_eq_true]
      constructor
      · unfold storeInBounds
        simp only [Bool.and_eq_true, decide_eq_true_eq]
        exact ⟨by omega, h2.1⟩
      · exact ih z (j + 1) h1 h2.2

/-- C9 (amended): the tokenization step writes only within the 5-row × 5-field
token array provided the decrypted payload carries at most 5 rows (at most 4
sentinel tokens) and at most 5 value fields per row; the loop itself performs
no bounds check, so payloads beyond that limit produce out-of-bounds stores
(see the counterexample). -/
theorem C9_tokenStores_bounded (crcCalc : List Char → Nat)
    (decryptF : List Char → List Char) (env : NetEnv) (ip cmd : List Char)
    (upd : Bool) (st : SockState)
    (h1 : sepCount (strtokTokens (decryptF (crcSplit env.response).2)) ≤ 4)
    (h2 : rowsOk 0 (strtokTokens (decryptF (crcSplit env.response).2)) = true) :
    ((socketClient crcCalc decryptF env ip cmd upd st).stores.all
        storeInBounds) = true := by
  rcases env with ⟨co, da, resp⟩
  cases co <;> cases da <;> cases upd <;>
      simp only [socketClient, Bool.not_true, Bool.not_false, if_true,
        if_false, ite_true, ite_false] <;>
    first
      | rfl
      | (split_ifs <;>
          first
            | rfl
            | exact tokenStoresAux_bounds _ 0 0 (by simpa using h1)
                (by simpa using h2))

/-- C9 counterexample: the response `"0:1,|,2,|,3,|,4,|,5,|,6"` passes the
checksum check (prefix 0 with a CRC collaborator returning 0), yet its six
sentinel-delimited rows drive the row index to 5: the store at `tokens[5][0]`
is outside the 5×5 array. -/
theorem C9_outOfBounds_counterexample :
    (socketClient (fun _ => 0) (fun s => s)
        (NetEnv.mk true true (("0:1,|,2,|,3,|,4,|,5,|,6").data))
        (("A").data) (("ALL").data) true (SockState.mk [] 0 [])).code = 0
    ∧ ((socketClient (fun _ => 0) (fun s => s)
        (NetEnv.mk true true (("0:1,|,2,|,3,|,4,|,5,|,6").data))
        (("A").data) (("ALL").data) true (SockState.mk [] 0 [])).stores.all
          storeInBounds) = false
    ∧ (5, 0) ∈ (socketClient (fun _ => 0) (fun s => s)
        (NetEnv.mk true true (("0:1,|,2,|,3,|,4,|,5,|,6").data))
        (("A").data) (("ALL").data) true (SockState.mk [] 0 [])).stores := by
  refine ⟨by decide, by decide, by decide⟩

/-- C9 witness: a two-row payload within the 5×5 limit parses with every
store in bounds. -/
theorem C9_tokenStores_bounded_witness :
    sepCount (strtokTokens ((fun s => s)
        (crcSplit (("0:1,2,|,3").data)).2)) ≤ 4
    ∧ rowsOk 0 (strtokTokens ((fun s => s)
        (crcSplit (("0:1,2,|,3").data)).2)) = true
    ∧ ((socketClient (fun _ => 0) (fun s => s)
        (NetEnv.mk true true (("0:1,2,|,3").data))
        (("A").data) (("ALL").data) true (SockState.mk [] 0 [])).stores.all
          storeInBounds) = true :=
  ⟨by decide, by decide,
   C9_tokenStores_bounded (fun _ => 0) (fun s => s)
     (NetEnv.mk true true (("0:1,2,|,3").data))
     (("A").data) (("ALL").data) true (SockState.mk [] 0 [])
     (by decide) (by decide)⟩

/-- C1 (amended): every `socketClient` call returns exactly one of 0 (`Ok`),
1 (`ConnectFailed`, iff the TCP connect fails), 2 (`Timeout`, iff no response
byte arrives within the 5 s window), 3 (`ChecksumMismatch`, iff the
recomputed checksum differs from the parsed hexadecimal prefix modulo 2^32);
and on every non-Ok result with `updateErrorQueue = true` the state update is
exactly one `socketRecovery` enqueue attempt for this peer/command followed
by one fail-counter increment — the record is appended when the queue is
below capacity, while a full queue leads to a reset plus one compensating
delete instead of an enqueue. -/
theorem C1_socketClient_result (crcCalc : List Char → Nat)
    (decryptF : List Char → List Char) (env : NetEnv) (ip cmd : List Char)
    (st : SockState) :
    ((socketClient crcCalc decryptF env ip cmd true st).code = 0
      ∨ (socketClient crcCalc decryptF env ip cmd true st).code = 1
      ∨ (socketClient crcCalc decryptF env ip cmd true st).code = 2
      ∨ (socketClient crcCalc decryptF env ip cmd true st).code = 3)
    ∧ ((socketClient crcCalc decryptF env ip cmd true st).code = 1 ↔
        env.connectOk = false)
    ∧ ((socketClient crcCalc decryptF env ip cmd true st).code = 2 ↔
        env.connectOk = true ∧ env.dataArrives = false)
    ∧ ((socketClient crcCalc decryptF env ip cmd true st).code = 3 ↔
        env.connectOk = true ∧ env.dataArrives = true ∧
          hexParse (crcSplit env.response).1 % UINT32_MOD ≠
            crcCalc (crcSplit env.response).2 % UINT32_MOD)
    ∧ ((socketClient crcCalc decryptF env ip cmd true st).st =
        if (socketClient crcCalc decryptF env ip cmd true st).code = 0 then st
        else { (socketRecovery ip cmd st).2 with
               failSocket := (socketRecovery ip cmd st).2.failSocket + 1 }) := by
  rcases env with ⟨co, da, resp⟩
  cases co <;> cases da <;>
      simp only [socketClient, Bool.not_true, Bool.not_false, if_true,
        if_false, ite_true, ite_false] <;>
    (split_ifs with hcrc <;> simp_all)

/-- C1 counterexample: connect failure for peer C with
`updateErrorQueue = true` while the queue already holds the records of peers
A and B — the result is `ConnectFailed` and the fail counter is incremented,
but no `SocketRecoveryRecord` for C is enqueued: the full queue is reset to
empty and a compensating delete keyed on C is issued instead. -/
theorem C1_queueFull_counterexample :
    (socketClient (fun _ => 0) (fun s => s) (NetEnv.mk false false [])
        (("C").data) (("ALL").data) true
        (SockState.mk [SockRec.mk (("A").data) (("ALL").data),
                       SockRec.mk (("B").data) (("ALL").data)] 0 [])).code = 1
    ∧ (socketClient (fun _ => 0) (fun s => s) (NetEnv.mk false false [])
        (("C").data) (("ALL").data) true
        (SockState.mk [SockRec.mk (("A").data) (("ALL").data),
                       SockRec.mk (("B").data) (("ALL").data)] 0 [])).st =
      SockState.mk [] 1 [deleteMACurl (("C").data)] := by
  refine ⟨by decide, by decide⟩

end Esp32Client
